import Mathlib

/-!
Verification of the Dragonfly scan-and-triage pipeline of the vipyrsec bot.

The definitions below are a shallow embedding of
`src/bot/exts/dragonfly/dragonfly.py` and `src/bot/dragonfly_services.py`.
Python strings are Lean `String`s (sequences of code points); Python `datetime`
values are `Int` unix timestamps; Python exceptions are the inductive `PyExn`;
channel sends are recorded as a trace of `SendEvent`s instead of performing IO.
-/

namespace DragonflyBot

/-- Exceptions that the embedded code distinguishes: `aiohttp.ClientResponseError`
(carrying HTTP status and message), `TypeError` (raised by Python when comparing
`None` with an `int`), and any other exception. -/
inductive PyExn where
  | clientResponseError (status : Nat) (message : String)
  | typeError (message : String)
  | other (message : String)
  deriving DecidableEq, Repr

/-- Scan lifecycle status, from `ScanStatus` in `dragonfly_services.py`. -/
inductive ScanStatus where
  | queued
  | pending
  | finished
  | failed
  deriving DecidableEq, Repr

/-- Modelled from the spec: the `Package` dataclass that `dragonfly.py` imports
from `bot.dragonfly_services` is not present under `src/` (the `src/` revision of
that module defines the analogous `PackageScanResult`).  Fields follow spec §3
(`name`/`version` identity, `status`, `score` absent or an integer, ordered
`rules`, `inspector_url`, nullable lifecycle timestamps). -/
structure Package where
  status : ScanStatus
  inspector_url : String
  queued_at : Int
  pending_at : Option Int
  finished_at : Option Int
  reported_at : Option Int
  version : String
  name : String
  package_id : String
  rules : List String
  score : Option Int
  deriving DecidableEq, Repr

/-- Python `str(package)`: the `__str__` method returns `f"{name} {version}"`. -/
def pkgStr (p : Package) : String :=
  p.name ++ " " ++ p.version

/-- Python truthiness fallback `x or 0` for an optional integer: `None` and `0`
are falsy and give the default `0`; any other integer is returned unchanged. -/
def pyOrZero (s : Option Int) : Int :=
  match s with
  | none => 0
  | some v => if v = 0 then 0 else v

/-- Python truthiness fallback `s or d` for strings: the empty string is falsy. -/
def pyOrStr (s d : String) : String :=
  if s = "" then d else s

/-- Python `sep.join(parts)`. -/
def pyJoin (sep : String) : List String → String
  | [] => ""
  | [x] => x
  | x :: y :: rest => x ++ sep ++ pyJoin sep (y :: rest)

/-- Python comparison `s >= t` where `s` may be `None`: comparing `None` with an
integer raises `TypeError`; otherwise the integer comparison is returned. -/
def pyGe (s : Option Int) (t : Int) : Except PyExn Bool :=
  match s with
  | none => Except.error (PyExn.typeError "not supported between instances of NoneType and int")
  | some v => Except.ok (decide (t ≤ v))

/-- Python slicing `s[:n]` on a string: the first `n` code points. -/
def pySlice (s : String) (n : Nat) : String :=
  String.mk (s.data.take n)

/-- Static configuration `DragonflyConfig` from `src/bot/constants.py`
(default values of the env-backed settings class). -/
def DragonflyConfig.threshold : Int := 5

/-- Poll interval in seconds, from `src/bot/constants.py`. -/
def DragonflyConfig.interval : Int := 60

/-- Role id pinged by alert messages, from `src/bot/constants.py`. -/
def DragonflyConfig.alerts_role_id : Nat := 1122647527485878392

/-- A Discord embed, restricted to the fields the Dragonfly cog writes.
The `timestamp` field (wall-clock decoration) is omitted. -/
structure Embed where
  title : String := ""
  description : String := ""
  color : Option Nat := none
  url : String := ""
  footer : String := ""
  author_name : String := ""
  author_url : String := ""
  fields : List (String × String) := []
  deriving DecidableEq, Repr

/-- Embedding of `_build_modal_title`: `"Confirm report for {name} v{version}"`,
truncated to its first 42 code points plus `"..."` when its length is ≥ 45. -/
def _build_modal_title (name version : String) : String :=
  let title := "Confirm report for " ++ name ++ " v" ++ version
  if title.length ≥ 45 then pySlice title 42 ++ "..." else title

/-- Embedding of `_build_package_scan_result_embed`: the lookup embed, labelled
`Malicious`/`Benign` against the static `DragonflyConfig.threshold`. -/
def _build_package_scan_result_embed (scan_result : Package) : Embed :=
  let condition := DragonflyConfig.threshold ≤ pyOrZero scan_result.score
  { title := (if condition then "Malicious" else "Benign") ++ " package found: "
      ++ scan_result.name ++ " @ " ++ scan_result.version
    description := "```YARA rules matched: " ++ pyOrStr (pyJoin ", " scan_result.rules) "None" ++ "```"
    color := some (if condition then 0xF70606 else 0x4CBB17)
    fields := [("\u200B", "[Inspector](" ++ scan_result.inspector_url ++ ")"),
               ("\u200B", "[PyPI](https://pypi.org/project/" ++ scan_result.name ++ "/"
                 ++ scan_result.version ++ ")")] }

/-- Embedding of `_build_package_scan_result_triage_embed`: the alert embed sent
by the scan loop (0xE67E22 is `discord.Color.orange()`). -/
def _build_package_scan_result_triage_embed (scan_result : Package) : Embed :=
  { title := "View on Inspector"
    description := "```" ++ pyJoin ", " scan_result.rules ++ "```"
    url := scan_result.inspector_url
    color := some 0xE67E22
    author_name := scan_result.name ++ "@" ++ scan_result.version
    author_url := "https://pypi.org/project/" ++ scan_result.name ++ "/" ++ scan_result.version
    footer := "Awaiting triage" }

/-- Embedding of `_build_all_packages_scanned_embed`: the per-cycle summary embed,
listing `str(p)` for every scanned package, or a fixed text when none were. -/
def _build_all_packages_scanned_embed (scan_results : List Package) : Embed :=
  if scan_results ≠ [] then
    { description := "```" ++ pyJoin "\n" (scan_results.map pkgStr) ++ "```" }
  else
    { description := "_No packages scanned_" }

/-- A message sent to a Discord channel by the scan cycle.  The constructor
records the destination: `alert` messages go to the alerts channel, the
`summary` message goes to the logs channel. -/
inductive SendEvent where
  | alert (content : String) (p : Package) (e : Embed)
  | summary (e : Embed)
  deriving DecidableEq, Repr

/-- Content of an alert message: the role ping `f"<@&{alerts_role_id}>"`. -/
def alertContent : String :=
  "<@&" ++ toString DragonflyConfig.alerts_role_id ++ ">"

/-- The alert message the scan cycle sends for one flagged result: role ping,
triage embed, `MalwareView` attached (the view itself carries no message data). -/
def mkAlert (p : Package) : SendEvent :=
  SendEvent.alert alertContent p (_build_package_scan_result_triage_embed p)

/-- The alert-sending loop of `run`: walks `scan_results` in order, comparing
`result.score >= score` (which raises `TypeError` on an absent score) and
sending an alert for every result at or above the threshold. -/
def alertEvents (score : Int) : List Package → Except PyExn (List SendEvent)
  | [] => Except.ok []
  | result :: rest =>
      match pyGe result.score score with
      | Except.error e => Except.error e
      | Except.ok b =>
          match alertEvents score rest with
          | Except.error e => Except.error e
          | Except.ok tail => Except.ok (if b then mkAlert result :: tail else tail)

/-- Embedding of `run`: sends the per-result alerts, then one summary message
listing every scanned package.  The value is the ordered trace of channel
sends, or the first exception raised. -/
def run (scan_results : List Package) (score : Int) : Except PyExn (List SendEvent) :=
  match alertEvents score scan_results with
  | Except.error e => Except.error e
  | Except.ok evs =>
      Except.ok (evs ++ [SendEvent.summary (_build_all_packages_scanned_embed scan_results)])

/-- Specification-side partition: the results of the batch whose score is present
and at or above the threshold, in upstream order. -/
def specAlertedPackages (score : Int) (pkgs : List Package) : List Package :=
  pkgs.filter fun p =>
    match p.score with
    | some v => decide (score ≤ v)
    | none => false

/-- Mutable state of the `Dragonfly` cog: the runtime score threshold and the
`since` watermark. -/
structure DragonflyCog where
  score_threshold : Int
  since : Int
  deriving DecidableEq, Repr

/-- Cog construction: threshold from config, watermark `now - interval`. -/
def DragonflyCog.init (now : Int) : DragonflyCog :=
  { score_threshold := DragonflyConfig.threshold
    since := now - DragonflyConfig.interval }

/-- Embedding of one iteration of `Dragonfly.scan_loop`.  `fetched` is the
outcome of the upstream fetch; the cycle body is the fetch followed by `run`.
On an exception the watermark is untouched and the exception is appended to the
Sentry capture list; on success the watermark becomes `now`.  The function
always returns (no exception escapes the loop body). -/
def Dragonfly.scan_loop (cog : DragonflyCog) (captured : List PyExn) (now : Int)
    (fetched : Except PyExn (List Package)) :
    DragonflyCog × List PyExn × List SendEvent :=
  match fetched.bind (fun scan_results => run scan_results cog.score_threshold) with
  | Except.error e => (cog, captured ++ [e], [])
  | Except.ok evs => ({ cog with since := now }, captured, evs)

/-- Configuration and token state of `DragonflyServices` in
`src/bot/dragonfly_services.py`. -/
structure DragonflyServices where
  base_url : String
  auth_url : String
  audience : String
  client_id : String
  client_secret : String
  username : String
  password : String
  token : String
  token_expires_at : Int
  deriving DecidableEq, Repr

/-- Body of a password-grant auth request, as built by `_update_token`. -/
structure AuthBody where
  grant_type : String
  audience : String
  client_id : String
  client_secret : String
  username : String
  password : String
  deriving DecidableEq, Repr

/-- Response of the auth endpoint: `access_token` and `expires_in` seconds. -/
structure AuthResponse where
  access_token : String
  expires_in : Int
  deriving DecidableEq, Repr

/-- An HTTP request made by the fetcher, in order. -/
inductive NetEvent where
  | authRequest (url : String) (body : AuthBody)
  | apiRequest (method : String) (url : String) (bearer : String)
  deriving DecidableEq, Repr

/-- The password-grant body `auth_dict` built by `_update_token`. -/
def DragonflyServices.auth_body (svc : DragonflyServices) : AuthBody :=
  { grant_type := "password"
    audience := svc.audience
    client_id := svc.client_id
    client_secret := svc.client_secret
    username := svc.username
    password := svc.password }

/-- Embedding of `DragonflyServices._update_token`: skip when the stored expiry
is strictly in the future, otherwise perform one password-grant request and
store the fresh token with expiry `now + expires_in`. -/
def DragonflyServices._update_token (svc : DragonflyServices) (now : Int)
    (resp : AuthResponse) : DragonflyServices × List NetEvent :=
  if svc.token_expires_at > now then
    (svc, [])
  else
    ({ svc with token := resp.access_token, token_expires_at := now + resp.expires_in },
     [NetEvent.authRequest svc.auth_url svc.auth_body])

/-- Embedding of `DragonflyServices.make_request`: refresh the token if needed,
then issue the API request with the (possibly fresh) bearer token. -/
def DragonflyServices.make_request (svc : DragonflyServices) (now : Int)
    (resp : AuthResponse) (method path : String) : DragonflyServices × List NetEvent :=
  let r := svc._update_token now resp
  (r.1, r.2 ++ [NetEvent.apiRequest method (r.1.base_url ++ path) ("Bearer " ++ r.1.token)])

/-- The two report-confirmation modal classes: `ConfirmEmailReportModal` (email
transport) and `ConfirmReportModal` (Observation API transport). -/
inductive ModalKind where
  | confirmEmailReportModal
  | confirmReportModal
  deriving DecidableEq, Repr

/-- The transport a modal kind submits on: email for `ConfirmEmailReportModal`,
the Observation API for `ConfirmReportModal`. -/
def ModalKind.use_email : ModalKind → Bool
  | ModalKind.confirmEmailReportModal => true
  | ModalKind.confirmReportModal => false

/-- State a report-confirmation modal holds after `__init__`: its class, the
package being reported, the built title, and the pre-filled inspector URL. -/
structure ModalState where
  kind : ModalKind
  package : Package
  title : String
  inspector_url_default : String
  deriving DecidableEq, Repr

/-- Modal construction (`__init__` of either modal class): store the package and
set `title`/`inspector_url.default` from it. -/
def mkModal (kind : ModalKind) (package : Package) : ModalState :=
  { kind := kind
    package := package
    title := _build_modal_title package.name package.version
    inspector_url_default := package.inspector_url }

/-- State of a `ReportMethodSwitchConfirmationView`: the modal whose submission
failed, and the disabled flags of its two buttons. -/
structure ReportMethodSwitchConfirmationView where
  previous_modal : ModalState
  confirm_disabled : Bool := false
  cancel_disabled : Bool := false
  deriving DecidableEq, Repr

/-- Outcome of a modal `on_error` handler: either an ephemeral fallback prompt
carrying a switch-confirmation view, or a generic message followed by
re-raising the error. -/
inductive ErrorOutcome where
  | fallbackPrompt (message : String) (view : ReportMethodSwitchConfirmationView)
  | genericThenReraise (err : PyExn)
  deriving DecidableEq, Repr

/-- The wording of the fallback prompt each modal class builds in `on_error`:
the email modal offers the Observation API and vice versa. -/
def fallbackMessage (k : ModalKind) (status : Nat) (msg : String) : String :=
  match k with
  | ModalKind.confirmEmailReportModal =>
      "Error from upstream: " ++ toString status ++ "\n```" ++ msg
        ++ "```\nRetry using Observation API instead?"
  | ModalKind.confirmReportModal =>
      "Error from upstream: " ++ toString status ++ "\n```" ++ msg
        ++ "```\nRetry using email instead?"

/-- Embedding of `ConfirmEmailReportModal.on_error` and
`ConfirmReportModal.on_error`: an `aiohttp.ClientResponseError` produces the
fallback prompt (whose wording names the other transport) with a fresh
switch-confirmation view holding this modal; any other exception produces a
generic ephemeral message and is re-raised. -/
def ModalState.on_error (m : ModalState) (error : PyExn) : ErrorOutcome :=
  match error with
  | PyExn.clientResponseError status msg =>
      ErrorOutcome.fallbackPrompt (fallbackMessage m.kind status msg) { previous_modal := m }
  | e => ErrorOutcome.genericThenReraise e

/-- The modal class of the alternate reporting transport. -/
def ModalKind.other : ModalKind → ModalKind
  | ModalKind.confirmEmailReportModal => ModalKind.confirmReportModal
  | ModalKind.confirmReportModal => ModalKind.confirmEmailReportModal

/-- Embedding of the `confirm` ("Yes") button of
`ReportMethodSwitchConfirmationView`: open a fresh modal of the other class for
the same package, then disable both buttons. -/
def ReportMethodSwitchConfirmationView.confirm
    (v : ReportMethodSwitchConfirmationView) :
    ModalState × ReportMethodSwitchConfirmationView :=
  let modal :=
    match v.previous_modal.kind with
    | ModalKind.confirmReportModal => mkModal ModalKind.confirmEmailReportModal v.previous_modal.package
    | ModalKind.confirmEmailReportModal => mkModal ModalKind.confirmReportModal v.previous_modal.package
  (modal, { v with confirm_disabled := true, cancel_disabled := true })

/-- Embedding of the `cancel` ("No, retry the operation") button of
`ReportMethodSwitchConfirmationView`: open a fresh modal of the same class for
the same package, then disable both buttons. -/
def ReportMethodSwitchConfirmationView.cancel
    (v : ReportMethodSwitchConfirmationView) :
    ModalState × ReportMethodSwitchConfirmationView :=
  (mkModal v.previous_modal.kind v.previous_modal.package,
   { v with confirm_disabled := true, cancel_disabled := true })

/-- Modelled from the spec: the state of a `discord.ext.tasks` loop as the spec
§4.1 relies on it (third-party code, not under `src/`): whether it is running
and whether a graceful stop has been requested.  `start` begins a fresh run,
`stop` lets the in-flight cycle finish, `cancel` aborts immediately. -/
structure TaskLoop where
  is_running : Bool
  stop_requested : Bool
  deriving DecidableEq, Repr

/-- The loop's `start()`: the loop runs, with no pending stop request. -/
def TaskLoop.startLoop (_t : TaskLoop) : TaskLoop :=
  { is_running := true, stop_requested := false }

/-- The loop's `stop()`: graceful stop requested, current cycle keeps running. -/
def TaskLoop.stopLoop (t : TaskLoop) : TaskLoop :=
  { t with stop_requested := true }

/-- The loop's `cancel()`: the loop is torn down immediately. -/
def TaskLoop.cancelLoop (_t : TaskLoop) : TaskLoop :=
  { is_running := false, stop_requested := false }

/-- Embedding of the `start` command of the `Dragonfly` cog: a no-op reply when
the loop already runs, otherwise start it. -/
def Dragonfly.start (t : TaskLoop) : TaskLoop × String :=
  if t.is_running then
    (t, "Task is already running")
  else
    (t.startLoop, "Started task")

/-- Embedding of the `stop` command of the `Dragonfly` cog: cancel when forced,
graceful stop otherwise, and a rejection reply when the loop is not running. -/
def Dragonfly.stop (t : TaskLoop) (force : Bool) : TaskLoop × String :=
  if t.is_running then
    if force then
      (t.cancelLoop, "Forcing shutdown")
    else
      (t.stopLoop, "Executing graceful shutdown")
  else
    (t, "Task is not running")

/-- The view classes a reply can attach. -/
inductive ViewTag where
  | reportView
  | malwareView
  | switchConfirmationView
  deriving DecidableEq, Repr

/-- An `interaction.response.send_message` call: content, embed and view are
each optional and default to absent. -/
structure InteractionReply where
  content : Option String := none
  embed : Option Embed := none
  view : Option ViewTag := none
  deriving DecidableEq, Repr

/-- Embedding of the `lookup` command body given the fetched `scan_results`:
a nonempty result list is answered with the scan-result embed of its first
element (and nothing else attached); an empty one with a fixed text.  The cog
state is taken as an argument to record that the command reads none of it. -/
def Dragonfly.lookup (_cog : DragonflyCog) (scan_results : List Package) : InteractionReply :=
  match scan_results with
  | [] => { content := some "No entries were found with the specified filters." }
  | r :: _ => { embed := some (_build_package_scan_result_embed r) }

/-- Embedding of the `threshold get` command. -/
def Dragonfly.threshold_get (cog : DragonflyCog) : DragonflyCog × String :=
  (cog, "The current threshold is set to `" ++ toString cog.score_threshold ++ "`")

/-- Embedding of the `threshold set` command: overwrite the runtime threshold. -/
def Dragonfly.threshold_set (cog : DragonflyCog) (value : Int) : DragonflyCog × String :=
  ({ cog with score_threshold := value },
   "The current threshold has been set to `" ++ toString value ++ "`")

/-- Concrete finished scan result with score 9 (the spec's §8 scenario). -/
def pkgFoo : Package :=
  { status := ScanStatus.finished
    inspector_url := "https://inspector.pypi.io/project/foo/1.0"
    queued_at := 10
    pending_at := some 11
    finished_at := some 12
    reported_at := none
    version := "1.0"
    name := "foo"
    package_id := "scan-foo-1"
    rules := ["obfuscation", "exfiltration"]
    score := some 9 }

/-- Concrete finished scan result with score 3 (the spec's §8 scenario). -/
def pkgBar : Package :=
  { status := ScanStatus.finished
    inspector_url := "https://inspector.pypi.io/project/bar/2.0"
    queued_at := 20
    pending_at := some 21
    finished_at := some 22
    reported_at := none
    version := "2.0"
    name := "bar"
    package_id := "scan-bar-1"
    rules := []
    score := some 3 }

/-- Trace of the spec's §8 scenario cycle: one alert for `foo`, then the summary
listing both packages. -/
def evsFooBar : List SendEvent :=
  [mkAlert pkgFoo, SendEvent.summary (_build_all_packages_scanned_embed [pkgFoo, pkgBar])]

/-- Trace of a cycle that fetched only `pkgFoo` at threshold 5. -/
def evsFoo : List SendEvent :=
  [mkAlert pkgFoo, SendEvent.summary (_build_all_packages_scanned_embed [pkgFoo])]

/-- Concrete fetcher state holding a token that expires at time 50. -/
def svcStale : DragonflyServices :=
  { base_url := "https://dragonfly.vipyrsec.com"
    auth_url := "https://vipyrsec.us.auth0.com/oauth/token"
    audience := "https://dragonfly.vipyrsec.com"
    client_id := "client-id"
    client_secret := "client-secret"
    username := "dragonfly-bot"
    password := "hunter2"
    token := "old-token"
    token_expires_at := 50 }

/-- The same fetcher state with a token that expires at time 200. -/
def svcFresh : DragonflyServices :=
  { svcStale with token_expires_at := 200 }

/-- Concrete auth-endpoint response. -/
def respNew : AuthResponse :=
  { access_token := "new-token", expires_in := 3600 }

/-! Helper lemmas shared by the claim theorems. -/

theorem mkAlert_injective : Function.Injective mkAlert := by
  intro a b h
  simp only [mkAlert, SendEvent.alert.injEq, true_and] at h
  exact h.1

theorem alertEvents_ok_eq (score : Int) :
    ∀ (pkgs : List Package) (evs : List SendEvent),
      alertEvents score pkgs = Except.ok evs →
      evs = (specAlertedPackages score pkgs).map mkAlert
  | [], evs, h => by
      simp only [alertEvents, Except.ok.injEq] at h
      simp [specAlertedPackages, ← h]
  | p :: rest, evs, h => by
      cases hs : p.score with
      | none => simp [alertEvents, pyGe, hs] at h
      | some v =>
          cases ht : alertEvents score rest with
          | error e => simp [alertEvents, pyGe, hs, ht] at h
          | ok tail =>
              have ih := alertEvents_ok_eq score rest tail ht
              simp only [alertEvents, pyGe, hs, ht, Except.ok.injEq] at h
              subst ih
              by_cases hv : score ≤ v
              · simp [← h, specAlertedPackages, List.filter_cons, hs, hv]
              · simp [← h, specAlertedPackages, List.filter_cons, hs, hv]

theorem run_ok_eq (pkgs : List Package) (score : Int) (evs : List SendEvent)
    (h : run pkgs score = Except.ok evs) :
    evs = (specAlertedPackages score pkgs).map mkAlert
      ++ [SendEvent.summary (_build_all_packages_scanned_embed pkgs)] := by
  unfold run at h
  cases ha : alertEvents score pkgs with
  | error e => rw [ha] at h; cases h
  | ok evs0 =>
      rw [ha] at h
      simp only [Except.ok.injEq] at h
      rw [← h, alertEvents_ok_eq score pkgs evs0 ha]

theorem mem_data_pyJoin (sep : String) :
    ∀ (l : List String) (x : String), x ∈ l → x.data <:+: (pyJoin sep l).data
  | [], x, hx => absurd hx (List.not_mem_nil x)
  | [y], x, hx => by
      have hxy : x = y := by simpa using hx
      subst hxy
      simp only [pyJoin]
      exact List.infix_refl _
  | y :: z :: rest, x, hx => by
      rcases List.mem_cons.mp hx with h | h
      · subst h
        refine ⟨[], sep.data ++ (pyJoin sep (z :: rest)).data, ?_⟩
        simp [pyJoin, String.data_append]
      · obtain ⟨s, t, hst⟩ := mem_data_pyJoin sep (z :: rest) x h
        refine ⟨y.data ++ sep.data ++ s, t, ?_⟩
        simp only [pyJoin, String.data_append, ← hst]
        simp [List.append_assoc]

theorem summary_mentions (pkgs : List Package) (p : Package) (hp : p ∈ pkgs) :
    (pkgStr p).data <:+: (_build_all_packages_scanned_embed pkgs).description.data := by
  have hne : pkgs ≠ [] := by
    rintro rfl
    exact (List.not_mem_nil p) hp
  have hmem : pkgStr p ∈ pkgs.map pkgStr := List.mem_map_of_mem pkgStr hp
  obtain ⟨s, t, hst⟩ := mem_data_pyJoin "\n" (pkgs.map pkgStr) (pkgStr p) hmem
  rw [_build_all_packages_scanned_embed, if_pos hne]
  refine ⟨("```" : String).data ++ s, t ++ ("```" : String).data, ?_⟩
  simp only [String.data_append, ← hst]
  simp [List.append_assoc]

/-- Claim C1: in every poll cycle, if the cycle body (fetch then `run`) raises,
the watermark `since` is unchanged, the exception is appended to the Sentry
capture list and nothing is re-raised (`Dragonfly.scan_loop` is a total
function); if the cycle completes, the watermark is set to that cycle's `now`,
which is strictly later than the previous watermark whenever the clock moved
forward. -/
theorem C1_scan_loop_failure_isolation (cog : DragonflyCog) (captured : List PyExn)
    (now : Int) (fetched : Except PyExn (List Package)) :
    (∀ e, fetched.bind (fun scan_results => run scan_results cog.score_threshold)
        = Except.error e →
      (Dragonfly.scan_loop cog captured now fetched).1 = cog ∧
      (Dragonfly.scan_loop cog captured now fetched).2.1 = captured ++ [e]) ∧
    (∀ evs, fetched.bind (fun scan_results => run scan_results cog.score_threshold)
        = Except.ok evs →
      (Dragonfly.scan_loop cog captured now fetched).1.since = now ∧
      (Dragonfly.scan_loop cog captured now fetched).2.1 = captured ∧
      (cog.since < now → cog.since < (Dragonfly.scan_loop cog captured now fetched).1.since)) := by
  constructor
  · intro e h
    unfold Dragonfly.scan_loop
    rw [h]
    exact ⟨rfl, rfl⟩
  · intro evs h
    unfold Dragonfly.scan_loop
    rw [h]
    exact ⟨rfl, rfl, fun hlt => hlt⟩

/-- Witness for C1: a failing cycle at watermark 100 leaves the watermark at 100
and captures the exception; a succeeding cycle at `now = 160` advances it. -/
theorem C1_scan_loop_failure_isolation_witness :
    (Dragonfly.scan_loop { score_threshold := 5, since := 100 } [] 160
        (Except.error (PyExn.clientResponseError 500 "upstream down"))).1
      = { score_threshold := 5, since := 100 } ∧
    (Dragonfly.scan_loop { score_threshold := 5, since := 100 } [] 160
        (Except.error (PyExn.clientResponseError 500 "upstream down"))).2.1
      = [PyExn.clientResponseError 500 "upstream down"] ∧
    (Dragonfly.scan_loop { score_threshold := 5, since := 100 } [] 160
        (Except.ok [pkgFoo])).1.since = 160 ∧
    (100 : Int) < (Dragonfly.scan_loop { score_threshold := 5, since := 100 } [] 160
        (Except.ok [pkgFoo])).1.since := by
  have h1 := (C1_scan_loop_failure_isolation { score_threshold := 5, since := 100 } [] 160
      (Except.error (PyExn.clientResponseError 500 "upstream down"))).1
      (PyExn.clientResponseError 500 "upstream down") rfl
  have h2 := (C1_scan_loop_failure_isolation { score_threshold := 5, since := 100 } [] 160
      (Except.ok [pkgFoo])).2 evsFoo rfl
  exact ⟨h1.1, by simpa using h1.2, h2.1, h2.2.2 (by norm_num)⟩

/-- Claim C2: in every successful poll cycle, each fetched result whose score is
at or above the threshold produces exactly one alert message (as many alert
sends as occurrences in the batch), each result below the threshold produces no
alert message, exactly one summary message is sent, and every result of the
batch appears (as its `str()` line) inside the summary message's text. -/
theorem C2_successful_cycle_alerts (scan_results : List Package) (score : Int)
    (evs : List SendEvent) (h : run scan_results score = Except.ok evs) :
    (∀ p ∈ scan_results, ∀ v : Int, p.score = some v → score ≤ v →
        evs.count (mkAlert p) = scan_results.count p) ∧
    (∀ p ∈ scan_results, ∀ v : Int, p.score = some v → v < score →
        ∀ c e, SendEvent.alert c p e ∉ evs) ∧
    evs.count (SendEvent.summary (_build_all_packages_scanned_embed scan_results)) = 1 ∧
    (∀ p ∈ scan_results,
        (pkgStr p).data <:+: (_build_all_packages_scanned_embed scan_results).description.data) := by
  have he := run_ok_eq scan_results score evs h
  refine ⟨?_, ?_, ?_, ?_⟩
  · intro p _hp v hv hle
    rw [he, List.count_append]
    have h1 : ((specAlertedPackages score scan_results).map mkAlert).count (mkAlert p)
        = (specAlertedPackages score scan_results).count p :=
      List.count_map_of_injective _ mkAlert mkAlert_injective p
    have h2 : (specAlertedPackages score scan_results).count p = scan_results.count p := by
      unfold specAlertedPackages
      exact List.count_filter (by simp [hv, hle])
    have h3 : ([SendEvent.summary (_build_all_packages_scanned_embed scan_results)]).count
        (mkAlert p) = 0 := by
      simp [mkAlert]
    rw [h1, h2, h3]
    omega
  · intro p _hp v hv hlt c e hmem
    rw [he] at hmem
    rcases List.mem_append.mp hmem with hm | hm
    · obtain ⟨q, hq, hqe⟩ := List.mem_map.mp hm
      have hqp : q = p := by
        simp only [mkAlert, SendEvent.alert.injEq] at hqe
        exact hqe.2.1
      subst hqp
      have hpred := List.of_mem_filter hq
      rw [hv] at hpred
      simp only [decide_eq_true_eq] at hpred
      omega
    · simp at hm
  · rw [he, List.count_append]
    have h0 : ((specAlertedPackages score scan_results).map mkAlert).count
        (SendEvent.summary (_build_all_packages_scanned_embed scan_results)) = 0 := by
      rw [List.count_eq_zero]
      intro hmem
      obtain ⟨q, _, hq⟩ := List.mem_map.mp hmem
      simp [mkAlert] at hq
    rw [h0]
    simp
  · intro p hp
    exact summary_mentions scan_results p hp

/-- Witness for C2: the spec's §8 scenario, threshold 8 over `foo` (score 9) and
`bar` (score 3): one alert for `foo`, none for `bar`, one summary message. -/
theorem C2_successful_cycle_alerts_witness :
    evsFooBar.count (mkAlert pkgFoo) = 1 ∧
    (∀ c e, SendEvent.alert c pkgBar e ∉ evsFooBar) ∧
    evsFooBar.count (SendEvent.summary (_build_all_packages_scanned_embed [pkgFoo, pkgBar])) = 1 := by
  have h := C2_successful_cycle_alerts [pkgFoo, pkgBar] 8 evsFooBar rfl
  refine ⟨?_, ?_, h.2.2.1⟩
  · have h1 := h.1 pkgFoo (by decide) 9 rfl (by decide)
    rw [h1]
    decide
  · intro c e
    exact h.2.1 pkgBar (by decide) 3 rfl (by decide) c e

/-- Claim C3: an upstream HTTP failure of a report modal presents the
transport-switch prompt holding that modal; confirming opens a modal of the
other transport for the same package, declining reopens a modal of the same
transport for the same package. -/
theorem C3_transport_fallback (k : ModalKind) (p : Package) (status : Nat) (msg : String) :
    (mkModal k p).on_error (PyExn.clientResponseError status msg)
      = ErrorOutcome.fallbackPrompt (fallbackMessage k status msg)
          { previous_modal := mkModal k p } ∧
    (ReportMethodSwitchConfirmationView.confirm { previous_modal := mkModal k p }).1
      = mkModal k.other p ∧
    (ReportMethodSwitchConfirmationView.cancel { previous_modal := mkModal k p }).1
      = mkModal k p ∧
    (ReportMethodSwitchConfirmationView.confirm { previous_modal := mkModal k p }).1.package.name
      = p.name ∧
    (ReportMethodSwitchConfirmationView.confirm { previous_modal := mkModal k p }).1.package.version
      = p.version := by
  cases k <;>
    simp [ModalState.on_error, ReportMethodSwitchConfirmationView.confirm,
      ReportMethodSwitchConfirmationView.cancel, mkModal, ModalKind.other]

/-- Claim C4: a poll cycle over an empty fetched batch sends exactly one
message: the summary, whose text says no packages were scanned; no alert
message is sent. -/
theorem C4_empty_batch (score : Int) :
    run [] score = Except.ok [SendEvent.summary { description := "_No packages scanned_" }] ∧
    (_build_all_packages_scanned_embed []).description = "_No packages scanned_" :=
  ⟨rfl, rfl⟩

/-- Claim C5: `start` on a running loop changes nothing and reports "already
running"; `stop` without force requests a graceful stop (the loop keeps
running), `stop` with force cancels immediately; either `stop` on a stopped
loop changes nothing and reports "not running". -/
theorem C5_admin_commands (sr : Bool) :
    Dragonfly.start { is_running := true, stop_requested := sr }
      = ({ is_running := true, stop_requested := sr }, "Task is already running") ∧
    Dragonfly.stop { is_running := true, stop_requested := sr } false
      = ({ is_running := true, stop_requested := true }, "Executing graceful shutdown") ∧
    Dragonfly.stop { is_running := true, stop_requested := sr } true
      = ({ is_running := false, stop_requested := false }, "Forcing shutdown") ∧
    (∀ force : Bool, Dragonfly.stop { is_running := false, stop_requested := sr } force
      = ({ is_running := false, stop_requested := sr }, "Task is not running")) :=
  ⟨rfl, rfl, rfl, fun _ => rfl⟩

/-- Claim C6: `make_request` with an unexpired token performs exactly the one
API request with the held token and changes no state; with an expired token it
performs exactly one password-grant auth request before the API request, and
the stored token and expiry become the response's `access_token` and
`now + expires_in`. -/
theorem C6_token_refresh (svc : DragonflyServices) (now : Int) (resp : AuthResponse)
    (method path : String) :
    (now < svc.token_expires_at →
      svc.make_request now resp method path
        = (svc, [NetEvent.apiRequest method (svc.base_url ++ path)
            ("Bearer " ++ svc.token)])) ∧
    (svc.token_expires_at ≤ now →
      svc.make_request now resp method path
        = ({ svc with token := resp.access_token, token_expires_at := now + resp.expires_in },
           [NetEvent.authRequest svc.auth_url svc.auth_body,
            NetEvent.apiRequest method (svc.base_url ++ path)
              ("Bearer " ++ resp.access_token)])) := by
  constructor
  · intro h
    unfold DragonflyServices.make_request DragonflyServices._update_token
    rw [if_pos h]
    rfl
  · intro h
    unfold DragonflyServices.make_request DragonflyServices._update_token
    rw [if_neg (by omega)]
    rfl

/-- Witness for C6: at time 100, a token expiring at 200 is used as is; a token
that expired at 50 triggers one refresh before the API call. -/
theorem C6_token_refresh_witness :
    svcFresh.make_request 100 respNew "GET" "/package"
      = (svcFresh, [NetEvent.apiRequest "GET" (svcFresh.base_url ++ "/package")
          ("Bearer " ++ svcFresh.token)]) ∧
    svcStale.make_request 100 respNew "GET" "/package"
      = ({ svcStale with
            token := respNew.access_token
            token_expires_at := 100 + respNew.expires_in },
         [NetEvent.authRequest svcStale.auth_url svcStale.auth_body,
          NetEvent.apiRequest "GET" (svcStale.base_url ++ "/package")
            ("Bearer " ++ respNew.access_token)]) :=
  ⟨(C6_token_refresh svcFresh 100 respNew "GET" "/package").1 (by norm_num [svcFresh, svcStale]),
   (C6_token_refresh svcStale 100 respNew "GET" "/package").2 (by norm_num [svcStale])⟩

/-- Claim C7 counterexample: the claim says a matching `lookup` reply carries a
Report-button view together with the embed, but on the concrete package
`pkgFoo` the reply carries the scan-result embed and no view at all (`lookup`
sends `embed=embed` only; `ReportView` is never attached). -/
theorem C7_lookup_counterexample :
    (Dragonfly.lookup (DragonflyCog.init 0) [pkgFoo]).embed
      = some (_build_package_scan_result_embed pkgFoo) ∧
    (Dragonfly.lookup (DragonflyCog.init 0) [pkgFoo]).view = none :=
  ⟨rfl, rfl⟩

/-- Claim C7 (amended): when at least one scan result matches, `lookup` replies
with the scan-result embed of the first result and attaches no view (no Report
button); when no result matches, it replies that no entries were found. -/
theorem C7_lookup_amended (cog : DragonflyCog) (r : Package) (rest : List Package) :
    Dragonfly.lookup cog (r :: rest)
      = { embed := some (_build_package_scan_result_embed r), content := none, view := none } ∧
    Dragonfly.lookup cog []
      = { content := some "No entries were found with the specified filters.",
          embed := none, view := none } :=
  ⟨rfl, rfl⟩

/-- Claim C8: in a successful cycle the trace is the per-result alerts followed
by the single summary; the alerted packages are the batch's filter (a sublist
of the upstream order, so alerts are sent in upstream order with no
re-sorting), and the summary comes after every alert. -/
theorem C8_cycle_ordering (scan_results : List Package) (score : Int)
    (evs : List SendEvent) (h : run scan_results score = Except.ok evs) :
    evs = (specAlertedPackages score scan_results).map mkAlert
        ++ [SendEvent.summary (_build_all_packages_scanned_embed scan_results)] ∧
    List.Sublist (specAlertedPackages score scan_results) scan_results := by
  refine ⟨run_ok_eq scan_results score evs h, ?_⟩
  unfold specAlertedPackages
  exact List.filter_sublist scan_results

/-- Witness for C8: the §8 scenario trace is the `foo` alert followed by the
summary, and the alerted sublist `[foo]` respects the upstream order. -/
theorem C8_cycle_ordering_witness :
    evsFooBar = (specAlertedPackages 8 [pkgFoo, pkgBar]).map mkAlert
        ++ [SendEvent.summary (_build_all_packages_scanned_embed [pkgFoo, pkgBar])] ∧
    List.Sublist (specAlertedPackages 8 [pkgFoo, pkgBar]) [pkgFoo, pkgBar] :=
  C8_cycle_ordering [pkgFoo, pkgBar] 8 evsFooBar rfl

/-- Claim C9: the modal title is at most 45 code points long: the full
`"Confirm report for {name} v{version}"` is returned verbatim when its length
is below 45, and otherwise its first 42 code points followed by `"..."`. -/
theorem C9_modal_title (name version : String) :
    (_build_modal_title name version).length ≤ 45 ∧
    (("Confirm report for " ++ name ++ " v" ++ version).length < 45 →
      _build_modal_title name version = "Confirm report for " ++ name ++ " v" ++ version) ∧
    (45 ≤ ("Confirm report for " ++ name ++ " v" ++ version).length →
      _build_modal_title name version
        = pySlice ("Confirm report for " ++ name ++ " v" ++ version) 42 ++ "...") := by
  refine ⟨?_, ?_, ?_⟩
  · unfold _build_modal_title
    by_cases h : ("Confirm report for " ++ name ++ " v" ++ version).length ≥ 45
    · rw [if_pos h, String.length_append]
      have hs : (pySlice ("Confirm report for " ++ name ++ " v" ++ version) 42).length
          = min 42 ("Confirm report for " ++ name ++ " v" ++ version).length := by
        have hq : (pySlice ("Confirm report for " ++ name ++ " v" ++ version) 42).length
            = (("Confirm report for " ++ name ++ " v" ++ version).data.take 42).length := rfl
        rw [hq, List.length_take]
        rfl
      have hd : ("..." : String).length = 3 := rfl
      have hmin : min 42 ("Confirm report for " ++ name ++ " v" ++ version).length ≤ 42 :=
        min_le_left _ _
      omega
    · rw [if_neg h]
      omega
  · intro h
    unfold _build_modal_title
    rw [if_neg (by omega)]
  · intro h
    unfold _build_modal_title
    rw [if_pos (by omega)]

/-- Witness for C9: a short title is returned verbatim; a long title is
truncated to 42 code points plus the ellipsis. -/
theorem C9_modal_title_witness :
    _build_modal_title "requests" "2.0" = "Confirm report for requests v2.0" ∧
    _build_modal_title "a-very-long-package-name-for-truncation" "1.0.0"
      = pySlice ("Confirm report for "
          ++ "a-very-long-package-name-for-truncation" ++ " v" ++ "1.0.0") 42 ++ "..." :=
  ⟨(C9_modal_title "requests" "2.0").2.1 (by decide),
   (C9_modal_title "a-very-long-package-name-for-truncation" "1.0.0").2.2 (by decide)⟩

/-- Claim C10: the `lookup` embed is labelled `Malicious` exactly when the
score (with an absent score treated as 0) reaches the statically configured
`DragonflyConfig.threshold`; the runtime threshold mutated by `threshold set`
has no effect on the reply, for every value it is set to. -/
theorem C10_lookup_threshold_is_static (cog : DragonflyCog) (value : Int)
    (p : Package) (results : List Package) :
    ((_build_package_scan_result_embed p).title
        = "Malicious package found: " ++ p.name ++ " @ " ++ p.version
      ↔ DragonflyConfig.threshold ≤ pyOrZero p.score) ∧
    pyOrZero none = 0 ∧
    Dragonfly.lookup (Dragonfly.threshold_set cog value).1 results
      = Dragonfly.lookup cog results := by
  refine ⟨?_, rfl, rfl⟩
  by_cases hc : DragonflyConfig.threshold ≤ pyOrZero p.score
  · simp only [_build_package_scan_result_embed, if_pos hc]
    constructor
    · intro _
      exact hc
    · intro _
      have hm : ("Malicious" ++ " package found: " : String) = "Malicious package found: " := rfl
      rw [← hm]
  · simp only [_build_package_scan_result_embed, if_neg hc]
    constructor
    · intro h
      exfalso
      have hlen := congrArg String.length h
      simp only [String.length_append] at hlen
      have e1 : ("Benign" : String).length = 6 := rfl
      have e2 : (" package found: " : String).length = 16 := rfl
      have e3 : ("Malicious package found: " : String).length = 25 := rfl
      omega
    · intro hge
      exact absurd hge hc

end DragonflyBot
